import Mathlib

/-!
# Verification of the mp_api query-operator and chunked-retrieval layer

Shallow embedding of:
* `SynthesisSearchQuery.query` / `post_process`
  (`src/mp_api/routes/synthesis/query_operators.py`),
* `XASQuery.query` (`src/mp_api/xas/query_operator.py`),
* `ChargeDensityRester.download_for_task_ids` and the chunked-retrieval loop
  behind `ChargeDensityRester.search` (`src/mp_api/routes/charge_density/client.py`).

Python dicts are modelled as insertion-ordered association lists with
replace-in-place assignment (`dictSet`), Python truthiness of optional
parameters by the `pyTruthy*` functions, and Python floats by `ℚ`
(the operators never do arithmetic on them, only presence tests).
-/

set_option maxHeartbeats 1000000

/-- A value stored in a `$match` criteria dict: either a plain string
(the reduced formula), `{"$in": [...]}`, `{"$all": [...]}`,
`{"$gte": x}` or `{"$lte": x}`. -/
inductive CritVal where
  | str (s : String)
  | inList (xs : List String)
  | allList (xs : List String)
  | gte (x : ℚ)
  | lte (x : ℚ)
  deriving DecidableEq, Repr

/-- A value of the `$project` dict: an inclusion flag (`0`/`1`) or a
`{"$meta": ...}` reference. -/
inductive ProjVal where
  | incl (n : Int)
  | meta (s : String)
  deriving DecidableEq, Repr

/-- One aggregation-pipeline stage, the tagged-variant vocabulary of the
synthesis operator: `$search` (index, query string, search path, highlight
path), `$project`, `$match`, `$sort`, `$skip`, `$limit`. -/
inductive Stage where
  | search (index : String) (query : String) (path : String) (highlightPath : String)
  | project (fields : List (String × ProjVal))
  | matchStage (crit : List (String × CritVal))
  | sort (spec : List (String × Int))
  | skip (n : Int)
  | limit (n : Int)
  deriving DecidableEq, Repr

/-- The kind tag of a pipeline stage, used to state ordering invariants. -/
inductive StageKind where
  | searchK | projectK | matchK | sortK | skipK | limitK
  deriving DecidableEq, Repr

/-- Kind of a stage. -/
def stageKind : Stage → StageKind
  | .search _ _ _ _ => .searchK
  | .project _ => .projectK
  | .matchStage _ => .matchK
  | .sort _ => .sortK
  | .skip _ => .skipK
  | .limit _ => .limitK

/-- Python truthiness of an `Optional[str]`: `None` and `""` are falsy. -/
def pyTruthyStr : Option String → Bool
  | none => false
  | some s => !s.isEmpty

/-- Python truthiness of an `Optional[List[...]]`: `None` and `[]` are falsy. -/
def pyTruthyList {α : Type} : Option (List α) → Bool
  | none => false
  | some xs => !xs.isEmpty

/-- Python truthiness of an `Optional[float]`: `None` and `0.0` are falsy. -/
def pyTruthyNum : Option ℚ → Bool
  | none => false
  | some x => x != 0

/-- Python truthiness of a criteria value at the top level of a criteria
dict: the nested operator dicts (`$in`/`$all`/`$gte`/`$lte`) are non-empty
dicts, hence always truthy; a plain string is truthy iff non-empty. -/
def pyCritValTruthy : CritVal → Bool
  | .str s => !s.isEmpty
  | _ => true

/-- Python dict assignment `d[k] = v`: replaces the value in place if the
key is present (keeping its position), appends otherwise. -/
def dictSet {α : Type} (k : String) (v : α) : List (String × α) → List (String × α)
  | [] => [(k, v)]
  | kv :: rest => if kv.1 = k then (k, v) :: rest else kv :: dictSet k v rest

/-- A guarded dict assignment, one `if <param>: crit[k] = v` statement. -/
def addIf (b : Bool) (k : String) (v : CritVal) (d : List (String × CritVal)) :
    List (String × CritVal) :=
  if b then dictSet k v d else d

/-- Dict lookup `d.get(k)`. -/
def critLookup (k : String) (d : List (String × CritVal)) : Option CritVal :=
  (d.find? (fun kv => kv.1 = k)).map (·.2)

namespace SynthesisSearchQuery

/-- The parameters of `SynthesisSearchQuery.query`, all optional filters
defaulting to `None`, plus `skip`/`limit` with their Python defaults.
Enum members (`SynthesisTypeEnum`, `OperationTypeEnum`) are modelled by
their string values. -/
structure Params where
  keywords : Option String := none
  synthesis_type : Option (List String) := none
  target_formula : Option String := none
  precursor_formula : Option String := none
  operations : Option (List String) := none
  condition_heating_temperature_min : Option ℚ := none
  condition_heating_temperature_max : Option ℚ := none
  condition_heating_time_min : Option ℚ := none
  condition_heating_time_max : Option ℚ := none
  condition_heating_atmosphere : Option (List String) := none
  condition_mixing_device : Option (List String) := none
  condition_mixing_media : Option (List String) := none
  skip : Int := 0
  limit : Int := 10
  deriving DecidableEq, Repr

/-- The initial `project_dict` literal of `SynthesisSearchQuery.query`. -/
def projectBase : List (String × ProjVal) :=
  [("_id", .incl 0), ("doi", .incl 1), ("synthesis_type", .incl 1),
   ("reaction", .incl 1), ("reaction_string", .incl 1), ("operations", .incl 1),
   ("target", .incl 1), ("targets_formula", .incl 1), ("targets_formula_s", .incl 1),
   ("precursors", .incl 1), ("precursors_formula_s", .incl 1),
   ("paragraph_string", .incl 1)]

/-- `project_dict` after the conditional
`project_dict.update({"search_score": ..., "highlights": ...})`
performed when `keywords` is truthy. -/
def projectDict (kw : Bool) : List (String × ProjVal) :=
  if kw then
    dictSet "highlights" (.meta "searchHighlights")
      (dictSet "search_score" (.meta "searchScore") projectBase)
  else projectBase

/-- The `crit` dict built by the eleven guarded assignments of
`SynthesisSearchQuery.query`, in source order.  `reduce` stands for the
external normalizer `Composition(...).get_reduced_formula_and_factor()[0]`.
Note that the four heating `min`/`max` assignments share a key pairwise:
a later assignment to the same key replaces the earlier one. -/
def crit (reduce : String → String) (p : Params) : List (String × CritVal) :=
  let c := ([] : List (String × CritVal))
  let c := addIf (pyTruthyList p.synthesis_type) "synthesis_type"
    (.inList (p.synthesis_type.getD [])) c
  let c := addIf (pyTruthyStr p.target_formula) "targets_formula_s"
    (.str (reduce (p.target_formula.getD ""))) c
  let c := addIf (pyTruthyStr p.precursor_formula) "precursors_formula_s"
    (.str (reduce (p.precursor_formula.getD ""))) c
  let c := addIf (pyTruthyList p.operations) "operations.type"
    (.allList (p.operations.getD [])) c
  let c := addIf (pyTruthyNum p.condition_heating_temperature_min)
    "operations.conditions.heating_temperature.values"
    (.gte (p.condition_heating_temperature_min.getD 0)) c
  let c := addIf (pyTruthyNum p.condition_heating_temperature_max)
    "operations.conditions.heating_temperature.values"
    (.lte (p.condition_heating_temperature_max.getD 0)) c
  let c := addIf (pyTruthyNum p.condition_heating_time_min)
    "operations.conditions.heating_time.values"
    (.gte (p.condition_heating_time_min.getD 0)) c
  let c := addIf (pyTruthyNum p.condition_heating_time_max)
    "operations.conditions.heating_time.values"
    (.lte (p.condition_heating_time_max.getD 0)) c
  let c := addIf (pyTruthyList p.condition_heating_atmosphere)
    "operations.conditions.heating_atmosphere"
    (.allList (p.condition_heating_atmosphere.getD [])) c
  let c := addIf (pyTruthyList p.condition_mixing_device)
    "operations.conditions.mixing_device"
    (.allList (p.condition_mixing_device.getD [])) c
  let c := addIf (pyTruthyList p.condition_mixing_media)
    "operations.conditions.mixing_media"
    (.allList (p.condition_mixing_media.getD [])) c
  c

/-- `SynthesisSearchQuery.query`: the returned `{"pipeline": pipeline}`
modelled as the stage list itself.  A `$search` stage (index
`"synth_descriptions"`, path and highlight path `"paragraph_string"`) is
appended when `keywords` is truthy, then the `$project` stage, then a
`$match` stage when `crit` is non-empty, then always
`$sort {"search_score": -1}`, `$skip`, `$limit`. -/
def query (reduce : String → String) (p : Params) : List Stage :=
  let kw := pyTruthyStr p.keywords
  (if kw then
      [Stage.search "synth_descriptions" (p.keywords.getD "")
        "paragraph_string" "paragraph_string"]
    else []) ++
  [Stage.project (projectDict kw)] ++
  (if (crit reduce p).isEmpty then [] else [Stage.matchStage (crit reduce p)]) ++
  [Stage.sort [("search_score", -1)], Stage.skip p.skip, Stage.limit p.limit]

end SynthesisSearchQuery

/-- A synthesis document as far as `post_process` is concerned: the
paragraph text, the highlight snippets, and the untouched remainder of the
document (doi etc.), kept opaque.  Text is modelled as `List Char`. -/
structure SynthDoc where
  doi : String
  paragraph_string : List Char
  highlights : List (List Char)
  deriving DecidableEq, Repr

/-- Modelled from the spec: the masking primitive shared by
`mask_highlights` and `mask_paragraphs` (`mp_api/routes/synthesis/utils.py`,
which is not under `src/`).  Per §4.2/§8 these are fixed-configuration
masking transforms on result text; modelled as truncation of the text to a
budget of `cfg` characters followed by an ellipsis marker. -/
def maskText (cfg : Nat) (s : List Char) : List Char :=
  if s.length ≤ cfg then s else s.take cfg ++ ['…']

namespace SynthesisSearchQuery

/-- Modelled from the spec: `mask_highlights`
(`mp_api/routes/synthesis/utils.py`, not under `src/`): masks each
highlight snippet of the document, leaving every other field unchanged. -/
def mask_highlights (cfg : Nat) (d : SynthDoc) : SynthDoc :=
  { d with highlights := d.highlights.map (maskText cfg) }

/-- Modelled from the spec: `mask_paragraphs`
(`mp_api/routes/synthesis/utils.py`, not under `src/`): masks the
`paragraph_string` field, leaving every other field unchanged. -/
def mask_paragraphs (cfg : Nat) (d : SynthDoc) : SynthDoc :=
  { d with paragraph_string := maskText cfg d.paragraph_string }

/-- `SynthesisSearchQuery.post_process`: applies `mask_highlights` then
`mask_paragraphs` to each document and returns the document list.  The
masking configuration `cfg` (fixed at call time in the source) is passed
explicitly. -/
def post_process (cfg : Nat) (docs : List SynthDoc) : List SynthDoc :=
  docs.map (fun d => mask_paragraphs cfg (mask_highlights cfg d))

end SynthesisSearchQuery

namespace XASQuery

/-- The parameters of `XASQuery.query`.  `edge` stands for the `Edge` enum
member's `.value` string, `absorbing_element` for `str(absorbing_element)`;
in both cases `none` models the Python `None` (enum/element instances are
always truthy when present, so `edge.value if edge else None` is modelled
by the option itself). -/
structure Params where
  edge : Option String := none
  absorbing_element : Option String := none
  deriving DecidableEq, Repr

/-- `XASQuery.query`: builds
`{"edge": ..., "absorbing_element": ...}`, drops falsy values
(`{k: v for k, v in query.items() if v}`), and returns
`{"criteria": query} if len(query) > 0 else {}` — modelled as
`some criteria` versus `none` (no `"criteria"` key at all). -/
def query (p : Params) : Option (List (String × String)) :=
  let q : List (String × Option String) :=
    [("edge", p.edge), ("absorbing_element", p.absorbing_element)]
  let q := q.filterMap (fun kv =>
    match kv.2 with
    | some s => if s.isEmpty then none else some (kv.1, s)
    | none => none)
  if q.length > 0 then some q else none

end XASQuery

/-- The charge-density document as used by `download_for_task_ids`: only
its `task_id` field is consulted (for the output filename). -/
structure ChgcarDataDoc where
  task_id : String
  deriving DecidableEq, Repr

namespace ChargeDensityRester

/-- The loop body of `download_for_task_ids`: for each task id, fetch the
document (`get_document_by_id`, external transport), then write it to
`path / f"{doc.task_id}.{ext}"` (`dumpfn`, external filesystem).  `fetch`
models the transport; `writeFails` models the filesystem, failing exactly
on the given filenames; the raised `IOError` is modelled as carrying the
failing filename.  Returns the list of files written (in order) and the
outcome: `.ok` with the count of successful writes, or the propagated
write error — the loop stops at the first failure. -/
def download_go (fetch : String → ChgcarDataDoc) (writeFails : String → Bool)
    (ext : String) : List String → List String → Nat →
    List String × Except String Nat
  | [], files, n => (files, .ok n)
  | tid :: rest, files, n =>
    let doc := fetch tid
    let fname := doc.task_id ++ "." ++ ext
    if writeFails fname then (files, .error fname)
    else download_go fetch writeFails ext rest (files ++ [fname]) (n + 1)

/-- `ChargeDensityRester.download_for_task_ids`, starting from an empty
directory and a zero counter. -/
def download_for_task_ids (fetch : String → ChgcarDataDoc)
    (writeFails : String → Bool) (ext : String) (task_ids : List String) :
    List String × Except String Nat :=
  download_go fetch writeFails ext task_ids [] 0

/-- A transport that returns, for each task id, a document whose
`task_id` is that id. -/
def idFetch : String → ChgcarDataDoc := fun s => ⟨s⟩

/-- Modelled from the spec: the chunked-retrieval loop of
`BaseRester.search` (`mp_api/core/client.py`, not under `src/`;
`ChargeDensityRester.search` delegates to it).  Per §4.4: each `Fetching`
step requests one page at the current `skip` offset with `chunk_size` as
limit from the simulated `store`, appends the page, advances `skip` by the
number of documents actually returned, and goes idle when a page returns
fewer than `chunk_size` documents or the chunk counter reaches
`num_chunks` (`none` means run until exhausted).  `fuel` only bounds the
recursion; `store.length + 1` steps always suffice when `chunk_size > 0`.
Returns the assembled ResultSequence and the number of transport calls. -/
def chunkGo {α : Type} (store : List α) (chunk_size : Nat)
    (num_chunks : Option Nat) : Nat → Nat → Nat → List α × Nat
  | 0, _, _ => ([], 0)
  | fuel + 1, skip, k =>
    let page := (store.drop skip).take chunk_size
    if page.length < chunk_size then (page, 1)
    else if (match num_chunks with
             | some n => decide (n ≤ k + 1)
             | none => false) = true then (page, 1)
    else
      let r := chunkGo store chunk_size num_chunks fuel (skip + page.length) (k + 1)
      (page ++ r.1, r.2 + 1)

/-- The chunked retrieval run from offset `0` with chunk counter `0`. -/
def chunkSearch {α : Type} (store : List α) (chunk_size : Nat)
    (num_chunks : Option Nat) : List α × Nat :=
  chunkGo store chunk_size num_chunks (store.length + 1) 0 0

end ChargeDensityRester

/-! ## Dict lemmas -/

theorem critLookup_nil (k : String) : critLookup k [] = none := rfl

theorem critLookup_dictSet (k k' : String) (v : CritVal)
    (d : List (String × CritVal)) :
    critLookup k (dictSet k' v d) = if k = k' then some v else critLookup k d := by
  induction d with
  | nil =>
    by_cases h : k = k'
    · simp [dictSet, critLookup, List.find?, h]
    · have h' : ¬ k' = k := fun e => h e.symm
      simp [dictSet, critLookup, List.find?, h, h']
  | cons kv rest ih =>
    simp only [dictSet]
    by_cases h1 : kv.1 = k'
    · by_cases h2 : k = k'
      · simp_all [critLookup, List.find?_cons]
      · have h' : ¬ k' = k := fun e => h2 e.symm
        simp_all [critLookup, List.find?_cons]
    · by_cases h2 : kv.1 = k
      · have h' : ¬ k = k' := fun h => h1 (h2.trans h)
        simp_all [critLookup, List.find?_cons]
      · simp_all [critLookup, List.find?_cons]

theorem critLookup_addIf_ne {k k' : String} (h : k ≠ k') (b : Bool) (v : CritVal)
    (d : List (String × CritVal)) :
    critLookup k (addIf b k' v d) = critLookup k d := by
  cases b <;> simp [addIf, critLookup_dictSet, h]

theorem critLookup_addIf_self (k : String) (b : Bool) (v : CritVal)
    (d : List (String × CritVal)) :
    critLookup k (addIf b k v d) = if b then some v else critLookup k d := by
  cases b <;> simp [addIf, critLookup_dictSet]

/-- Membership in a dict after assignment: the new pair or an old one. -/
theorem mem_dictSet {α : Type} {kv : String × α} {k : String} {v : α}
    {d : List (String × α)} (h : kv ∈ dictSet k v d) : kv = (k, v) ∨ kv ∈ d := by
  induction d with
  | nil => simpa [dictSet] using h
  | cons kv' rest ih =>
    simp only [dictSet] at h
    split at h
    · rcases List.mem_cons.1 h with h | h
      · exact .inl h
      · exact .inr (List.mem_cons_of_mem _ h)
    · rcases List.mem_cons.1 h with h | h
      · exact .inr (h ▸ List.mem_cons_self _ _)
      · rcases ih h with h | h
        · exact .inl h
        · exact .inr (List.mem_cons_of_mem _ h)

theorem mem_addIf {kv : String × CritVal} {b : Bool} {k : String} {v : CritVal}
    {d : List (String × CritVal)} (h : kv ∈ addIf b k v d) :
    (b = true ∧ kv = (k, v)) ∨ kv ∈ d := by
  cases b with
  | false => exact .inr (by simpa [addIf] using h)
  | true =>
    rcases mem_dictSet (by simpa [addIf] using h) with h | h
    · exact .inl ⟨rfl, h⟩
    · exact .inr h

/-! ## Characterization of the synthesis `crit` dict, key by key -/

namespace SynthesisSearchQuery

theorem crit_synthesis_type (reduce : String → String) (p : Params) :
    critLookup "synthesis_type" (crit reduce p) =
      if pyTruthyList p.synthesis_type then
        some (.inList (p.synthesis_type.getD [])) else none := by
  simp only [crit]
  rw [critLookup_addIf_ne (by decide), critLookup_addIf_ne (by decide),
    critLookup_addIf_ne (by decide), critLookup_addIf_ne (by decide),
    critLookup_addIf_ne (by decide), critLookup_addIf_ne (by decide),
    critLookup_addIf_ne (by decide), critLookup_addIf_ne (by decide),
    critLookup_addIf_ne (by decide), critLookup_addIf_ne (by decide),
    critLookup_addIf_self, critLookup_nil]

theorem crit_targets_formula (reduce : String → String) (p : Params) :
    critLookup "targets_formula_s" (crit reduce p) =
      if pyTruthyStr p.target_formula then
        some (.str (reduce (p.target_formula.getD ""))) else none := by
  simp only [crit]
  rw [critLookup_addIf_ne (by decide), critLookup_addIf_ne (by decide),
    critLookup_addIf_ne (by decide), critLookup_addIf_ne (by decide),
    critLookup_addIf_ne (by decide), critLookup_addIf_ne (by decide),
    critLookup_addIf_ne (by decide), critLookup_addIf_ne (by decide),
    critLookup_addIf_ne (by decide), critLookup_addIf_self,
    critLookup_addIf_ne (by decide), critLookup_nil]

theorem crit_precursors_formula (reduce : String → String) (p : Params) :
    critLookup "precursors_formula_s" (crit reduce p) =
      if pyTruthyStr p.precursor_formula then
        some (.str (reduce (p.precursor_formula.getD ""))) else none := by
  simp only [crit]
  rw [critLookup_addIf_ne (by decide), critLookup_addIf_ne (by decide),
    critLookup_addIf_ne (by decide), critLookup_addIf_ne (by decide),
    critLookup_addIf_ne (by decide), critLookup_addIf_ne (by decide),
    critLookup_addIf_ne (by decide), critLookup_addIf_ne (by decide),
    critLookup_addIf_self, critLookup_addIf_ne (by decide),
    critLookup_addIf_ne (by decide), critLookup_nil]

theorem crit_operations_type (reduce : String → String) (p : Params) :
    critLookup "operations.type" (crit reduce p) =
      if pyTruthyList p.operations then
        some (.allList (p.operations.getD [])) else none := by
  simp only [crit]
  rw [critLookup_addIf_ne (by decide), critLookup_addIf_ne (by decide),
    critLookup_addIf_ne (by decide), critLookup_addIf_ne (by decide),
    critLookup_addIf_ne (by decide), critLookup_addIf_ne (by decide),
    critLookup_addIf_ne (by decide), critLookup_addIf_self,
    critLookup_addIf_ne (by decide), critLookup_addIf_ne (by decide),
    critLookup_addIf_ne (by decide), critLookup_nil]

/-- The heating-temperature key is written twice (once under the `min`
guard with `$gte`, once under the `max` guard with `$lte`); the second
assignment replaces the first, so a supplied `max` hides a supplied
`min`. -/
theorem crit_heating_temperature (reduce : String → String) (p : Params) :
    critLookup "operations.conditions.heating_temperature.values" (crit reduce p) =
      if pyTruthyNum p.condition_heating_temperature_max then
        some (.lte (p.condition_heating_temperature_max.getD 0))
      else if pyTruthyNum p.condition_heating_temperature_min then
        some (.gte (p.condition_heating_temperature_min.getD 0))
      else none := by
  simp only [crit]
  rw [critLookup_addIf_ne (by decide), critLookup_addIf_ne (by decide),
    critLookup_addIf_ne (by decide), critLookup_addIf_ne (by decide),
    critLookup_addIf_ne (by decide), critLookup_addIf_self,
    critLookup_addIf_self, critLookup_addIf_ne (by decide),
    critLookup_addIf_ne (by decide), critLookup_addIf_ne (by decide),
    critLookup_addIf_ne (by decide), critLookup_nil]

/-- Same replacement behaviour for the heating-time key. -/
theorem crit_heating_time (reduce : String → String) (p : Params) :
    critLookup "operations.conditions.heating_time.values" (crit reduce p) =
      if pyTruthyNum p.condition_heating_time_max then
        some (.lte (p.condition_heating_time_max.getD 0))
      else if pyTruthyNum p.condition_heating_time_min then
        some (.gte (p.condition_heating_time_min.getD 0))
      else none := by
  simp only [crit]
  rw [critLookup_addIf_ne (by decide), critLookup_addIf_ne (by decide),
    critLookup_addIf_ne (by decide), critLookup_addIf_self,
    critLookup_addIf_self, critLookup_addIf_ne (by decide),
    critLookup_addIf_ne (by decide), critLookup_addIf_ne (by decide),
    critLookup_addIf_ne (by decide), critLookup_addIf_ne (by decide),
    critLookup_addIf_ne (by decide), critLookup_nil]

theorem crit_heating_atmosphere (reduce : String → String) (p : Params) :
    critLookup "operations.conditions.heating_atmosphere" (crit reduce p) =
      if pyTruthyList p.condition_heating_atmosphere then
        some (.allList (p.condition_heating_atmosphere.getD [])) else none := by
  simp only [crit]
  rw [critLookup_addIf_ne (by decide), critLookup_addIf_ne (by decide),
    critLookup_addIf_self, critLookup_addIf_ne (by decide),
    critLookup_addIf_ne (by decide), critLookup_addIf_ne (by decide),
    critLookup_addIf_ne (by decide), critLookup_addIf_ne (by decide),
    critLookup_addIf_ne (by decide), critLookup_addIf_ne (by decide),
    critLookup_addIf_ne (by decide), critLookup_nil]

theorem crit_mixing_device (reduce : String → String) (p : Params) :
    critLookup "operations.conditions.mixing_device" (crit reduce p) =
      if pyTruthyList p.condition_mixing_device then
        some (.allList (p.condition_mixing_device.getD [])) else none := by
  simp only [crit]
  rw [critLookup_addIf_ne (by decide), critLookup_addIf_self,
    critLookup_addIf_ne (by decide), critLookup_addIf_ne (by decide),
    critLookup_addIf_ne (by decide), critLookup_addIf_ne (by decide),
    critLookup_addIf_ne (by decide), critLookup_addIf_ne (by decide),
    critLookup_addIf_ne (by decide), critLookup_addIf_ne (by decide),
    critLookup_addIf_ne (by decide), critLookup_nil]

theorem crit_mixing_media (reduce : String → String) (p : Params) :
    critLookup "operations.conditions.mixing_media" (crit reduce p) =
      if pyTruthyList p.condition_mixing_media then
        some (.allList (p.condition_mixing_media.getD [])) else none := by
  simp only [crit]
  rw [critLookup_addIf_self, critLookup_addIf_ne (by decide),
    critLookup_addIf_ne (by decide), critLookup_addIf_ne (by decide),
    critLookup_addIf_ne (by decide), critLookup_addIf_ne (by decide),
    critLookup_addIf_ne (by decide), critLookup_addIf_ne (by decide),
    critLookup_addIf_ne (by decide), critLookup_addIf_ne (by decide),
    critLookup_addIf_ne (by decide), critLookup_nil]

end SynthesisSearchQuery

/-! ## The chunked-retrieval loop without a chunk cap -/

namespace ChargeDensityRester

/-- With `num_chunks = none` and positive `chunk_size`, the loop drains the
store from the current offset and makes `remaining / chunk_size + 1`
transport calls (the final call returns the short or empty page that
signals exhaustion). -/
theorem chunkGo_none {α : Type} (store : List α) (cs : Nat) (hcs : 0 < cs) :
    ∀ (fuel skip k : Nat), (store.length - skip) / cs + 1 ≤ fuel →
      chunkGo store cs none fuel skip k =
        (store.drop skip, (store.length - skip) / cs + 1) := by
  intro fuel
  induction fuel with
  | zero => intro skip k h; exact (Nat.not_succ_le_zero _ h).elim
  | succ fuel ih =>
    intro skip k h
    have hlen : ((store.drop skip).take cs).length = min cs (store.length - skip) := by
      simp [List.length_take, List.length_drop]
    by_cases hR : store.length - skip < cs
    · have hpage : (store.drop skip).take cs = store.drop skip :=
        List.take_of_length_le (by rw [List.length_drop]; omega)
      have hdiv : (store.length - skip) / cs = 0 := Nat.div_eq_of_lt hR
      simp only [chunkGo]
      rw [if_pos (by rw [hlen]; omega), hpage, hdiv]
    · have hcsle : cs ≤ store.length - skip := le_of_not_lt hR
      have hpl : ((store.drop skip).take cs).length = cs := by rw [hlen]; omega
      have hq : (store.length - skip) / cs = (store.length - skip - cs) / cs + 1 :=
        Nat.div_eq_sub_div hcs hcsle
      simp only [chunkGo]
      rw [if_neg (by rw [hpl]; omega), if_neg (by simp), hpl]
      have hdd : store.length - (skip + cs) = store.length - skip - cs := by omega
      have hrec : chunkGo store cs none fuel (skip + cs) (k + 1) =
          (store.drop (skip + cs), (store.length - (skip + cs)) / cs + 1) := by
        refine ih (skip + cs) (k + 1) ?_
        rw [hdd]
        have h' : (store.length - skip) / cs ≤ fuel := Nat.succ_le_succ_iff.mp h
        exact hq ▸ h'
      rw [hrec]
      have hdocs : (store.drop skip).take cs ++ store.drop (skip + cs) =
          store.drop skip := by
        rw [show store.drop (skip + cs) = (store.drop skip).drop cs from
          (List.drop_drop cs skip store).symm, List.take_append_drop]
      rw [hdocs, hdd]
      have : (store.length - skip - cs) / cs + 1 + 1 = (store.length - skip) / cs + 1 := by
        rw [hq]
      rw [this]

end ChargeDensityRester

/-! ## Idempotence of the masking transforms -/

theorem maskText_idem (cfg : Nat) (s : List Char) :
    maskText cfg (maskText cfg s) = maskText cfg s := by
  by_cases h : s.length ≤ cfg
  · simp [maskText, h]
  · have h1 : maskText cfg s = s.take cfg ++ ['…'] := by simp [maskText, h]
    have hlen : (s.take cfg ++ ['…']).length = cfg + 1 := by
      simp [List.length_take]
      omega
    rw [h1]
    simp only [maskText, hlen]
    rw [if_neg (by omega)]
    congr 1
    rw [List.take_append_of_le_length (by simp [List.length_take]; omega),
      List.take_take]
    simp

/-! ## Claim theorems -/

/-- Claim C1 (code bug): with both `condition_heating_temperature_min = 500`
and `condition_heating_temperature_max = 1000` supplied, the emitted Match
stage holds only the `lte` criterion — the second dict assignment to
`"operations.conditions.heating_temperature.values"` overwrote the `gte`
bound instead of merging with it, so the claimed gte-and-lte merge does not
happen. -/
theorem c1_heating_range_max_overwrites_min :
    SynthesisSearchQuery.query id
      { condition_heating_temperature_min := some 500,
        condition_heating_temperature_max := some 1000 } =
      [Stage.project SynthesisSearchQuery.projectBase,
       Stage.matchStage
         [("operations.conditions.heating_temperature.values", .lte 1000)],
       Stage.sort [("search_score", -1)], Stage.skip 0, Stage.limit 10] := by
  decide

/-- Claim C2: for every parameter combination the pipeline's stage kinds
form a sublist of the master order
`search, project, match, sort, skip, limit` (so every present stage
respects that order, each kind occurs at most once, and a present search
stage is immediately followed by the projection), and the mandatory kinds
`project, sort, skip, limit` are always present in that order. -/
theorem c2_stage_order (reduce : String → String)
    (p : SynthesisSearchQuery.Params) :
    ((SynthesisSearchQuery.query reduce p).map stageKind).Sublist
      [StageKind.searchK, StageKind.projectK, StageKind.matchK,
       StageKind.sortK, StageKind.skipK, StageKind.limitK] ∧
    [StageKind.projectK, StageKind.sortK, StageKind.skipK,
     StageKind.limitK].Sublist
      ((SynthesisSearchQuery.query reduce p).map stageKind) := by
  unfold SynthesisSearchQuery.query
  by_cases hk : pyTruthyStr p.keywords <;>
    by_cases hc : (SynthesisSearchQuery.crit reduce p).isEmpty <;>
      simp [hk, hc, stageKind]

/-- Claim C4 (code bug): a request with `limit = 100`, far above the
documented maximum of 10, flows straight through `query`: the pipeline
ends in `{"$limit": 100}` and no `ConfigurationError` (or any error) is
raised — the clamp announced in the parameter description
(`"Limited to 10."`) is not enforced anywhere in the operator. -/
theorem c4_limit_unenforced :
    SynthesisSearchQuery.query id { limit := 100 } =
      [Stage.project SynthesisSearchQuery.projectBase,
       Stage.sort [("search_score", -1)], Stage.skip 0, Stage.limit 100] := by
  decide

/-- Claim C6: the formula filters are normalized before use — whenever the
external reducer maps two formula spellings to the same reduced form (the
definition of chemical equivalence under reduction), `query` emits
identical pipelines, for the target and the precursor filter alike. -/
theorem c6_formula_normalized (reduce : String → String)
    (p : SynthesisSearchQuery.Params) (f1 f2 g1 g2 : String)
    (hf : reduce f1 = reduce f2) (hg : reduce g1 = reduce g2)
    (hf1 : f1.isEmpty = false) (hf2 : f2.isEmpty = false)
    (hg1 : g1.isEmpty = false) (hg2 : g2.isEmpty = false) :
    SynthesisSearchQuery.query reduce
      { p with target_formula := some f1, precursor_formula := some g1 } =
    SynthesisSearchQuery.query reduce
      { p with target_formula := some f2, precursor_formula := some g2 } := by
  simp [SynthesisSearchQuery.query, SynthesisSearchQuery.crit, pyTruthyStr,
    hf, hg, hf1, hf2, hg1, hg2]

/-- An example reducer: maps the unreduced spelling `"Fe2O4"` to `"FeO2"`
and leaves everything else alone. -/
def reduceEx : String → String := fun s => if s = "Fe2O4" then "FeO2" else s

/-- Witness for C6 at the spec's own example pair `"Fe2O4"`/`"FeO2"`. -/
theorem c6_formula_normalized_witness :
    SynthesisSearchQuery.query reduceEx
      { target_formula := some "Fe2O4", precursor_formula := some "Li2CO3" } =
    SynthesisSearchQuery.query reduceEx
      { target_formula := some "FeO2", precursor_formula := some "Li2CO3" } :=
  c6_formula_normalized reduceEx {} "Fe2O4" "FeO2" "Li2CO3" "Li2CO3"
    (by decide) (by decide) (by decide) (by decide) (by decide) (by decide)

/-- Claim C9: `post_process` is idempotent — masking highlights and
paragraphs a second time with the same configuration changes nothing. -/
theorem c9_post_process_idempotent (cfg : Nat) (docs : List SynthDoc) :
    SynthesisSearchQuery.post_process cfg
      (SynthesisSearchQuery.post_process cfg docs) =
    SynthesisSearchQuery.post_process cfg docs := by
  simp only [SynthesisSearchQuery.post_process, List.map_map]
  refine List.map_congr_left (fun d _ => ?_)
  simp [SynthesisSearchQuery.mask_paragraphs, SynthesisSearchQuery.mask_highlights,
    Function.comp_def, maskText_idem, List.map_map]

/-- Counterexample to C3 as stated: over a store of N = 10 documents with
`chunk_size = 10` and `num_chunks = none`, the loop makes 2 transport
calls (the first full page cannot prove exhaustion, so an extra empty page
is fetched), while ceil(10/10) = (10 + 10 - 1) / 10 = 1. -/
theorem c3_calls_counterexample :
    ChargeDensityRester.chunkSearch (List.range 10) 10 none =
      (List.range 10, 2) ∧ ¬((10 + 10 - 1) / 10 = 2) := by
  decide

/-- Claim C3 as amended: with `num_chunks = none` and positive chunk size
the ResultSequence is exactly the store in store order, using
`N / chunk_size + 1` transport calls — which equals ceil(N/chunk_size)
when `chunk_size` does not divide `N`, and is one extra call (to observe
the short/empty page) when it does; and with `num_chunks = 2`,
`chunk_size = 10` over 25 available documents, exactly the first 20
documents are returned in 2 calls.  Skip-advance-by-returned-count and
the two stop conditions are the definition of `chunkGo`. -/
theorem c3_pagination :
    (∀ {α : Type} (store : List α) (cs : Nat), 0 < cs →
      ChargeDensityRester.chunkSearch store cs none =
        (store, store.length / cs + 1)) ∧
    ChargeDensityRester.chunkSearch (List.range 25) 10 (some 2) =
      ((List.range 25).take 20, 2) := by
  constructor
  · intro α store cs hcs
    have h := ChargeDensityRester.chunkGo_none store cs hcs
      (store.length + 1) 0 0
      (by simpa using Nat.add_le_add_right (Nat.div_le_self store.length cs) 1)
    simpa [ChargeDensityRester.chunkSearch] using h
  · decide

/-- Witness for C3's amended theorem at a store of 7 documents and chunk
size 3: all 7 documents come back in order, in 7/3 + 1 = 3 calls. -/
theorem c3_pagination_witness :
    ChargeDensityRester.chunkSearch (List.range 7) 3 none =
      (List.range 7, (List.range 7).length / 3 + 1) :=
  c3_pagination.1 (List.range 7) 3 (by decide)

/-- Counterexample to C5 as stated: two exports that fail on the file
`"mp-b.json.gz"` — one after a successful first write, one immediately —
surface the identical value to the caller (`.error "mp-b.json.gz"`), even
though the completed counts differ (1 file vs 0 files).  The surfaced
failure therefore cannot carry the claimed partial manifest with its
1-completed-entry count; only the failing filename propagates. -/
theorem c5_error_counterexample :
    ChargeDensityRester.download_for_task_ids ChargeDensityRester.idFetch
        (fun f => f == "mp-b.json.gz") "json.gz" ["mp-a", "mp-b", "mp-c"] =
      (["mp-a.json.gz"], .error "mp-b.json.gz") ∧
    ChargeDensityRester.download_for_task_ids ChargeDensityRester.idFetch
        (fun f => f == "mp-b.json.gz") "json.gz" ["mp-b", "mp-a", "mp-c"] =
      ([], .error "mp-b.json.gz") :=
  ⟨rfl, rfl⟩

/-- Helper: a fully successful export writes one `{id}.{ext}` file per
identifier, in order, and counts them. -/
theorem download_go_ok (fetch : String → ChgcarDataDoc)
    (w : String → Bool) (ext : String) :
    ∀ (ids files : List String) (n : Nat),
      (∀ i ∈ ids, (fetch i).task_id = i) →
      (∀ i ∈ ids, w (i ++ "." ++ ext) = false) →
      ChargeDensityRester.download_go fetch w ext ids files n =
        (files ++ ids.map (fun i => i ++ "." ++ ext), .ok (n + ids.length)) := by
  intro ids
  induction ids with
  | nil => intro files n _ _; simp [ChargeDensityRester.download_go]
  | cons i rest ih =>
    intro files n hf hw
    have hfi : (fetch i).task_id = i := hf i (List.mem_cons_self i rest)
    have hwi : w (i ++ "." ++ ext) = false := hw i (List.mem_cons_self i rest)
    simp only [ChargeDensityRester.download_go, hfi, hwi, if_neg Bool.false_ne_true]
    rw [ih (files ++ [i ++ "." ++ ext]) (n + 1)
      (fun j hj => hf j (List.mem_cons_of_mem _ hj))
      (fun j hj => hw j (List.mem_cons_of_mem _ hj))]
    simp [List.append_assoc]
    omega

/-- Claim C5 as amended: exporting identifiers over a transport whose
documents carry their own ids and a filesystem that accepts every write
produces exactly the files `{id}.{ext}`, in order, and returns their
count (`3` files and count `3` for three identifiers); while if the write
for the 2nd identifier fails, the export stops with only the 1st file
written — the 3rd identifier is never attempted — and the write error
(carrying the failing filename, hence the failing identifier) propagates
to the caller instead of being skipped; no completed-count manifest
accompanies it. -/
theorem c5_download :
    (∀ (fetch : String → ChgcarDataDoc) (w : String → Bool) (ext : String)
        (ids : List String),
      (∀ i ∈ ids, (fetch i).task_id = i) →
      (∀ i ∈ ids, w (i ++ "." ++ ext) = false) →
      ChargeDensityRester.download_for_task_ids fetch w ext ids =
        (ids.map (fun i => i ++ "." ++ ext), .ok ids.length)) ∧
    (∀ (fetch : String → ChgcarDataDoc) (w : String → Bool) (ext : String)
        (a b c : String),
      (fetch a).task_id = a → (fetch b).task_id = b →
      w (a ++ "." ++ ext) = false → w (b ++ "." ++ ext) = true →
      ChargeDensityRester.download_for_task_ids fetch w ext [a, b, c] =
        ([a ++ "." ++ ext], .error (b ++ "." ++ ext))) := by
  constructor
  · intro fetch w ext ids hf hw
    have h := download_go_ok fetch w ext ids [] 0 hf hw
    simpa [ChargeDensityRester.download_for_task_ids] using h
  · intro fetch w ext a b c ha hb hwa hwb
    simp [ChargeDensityRester.download_for_task_ids,
      ChargeDensityRester.download_go, ha, hb, hwa, hwb]

/-- Witness for C5's amended theorem: three identifiers, no write
failures — three files and a count of 3. -/
theorem c5_download_witness :
    ChargeDensityRester.download_for_task_ids ChargeDensityRester.idFetch
        (fun _ => false) "json.gz" ["mp-1", "mp-2", "mp-3"] =
      (["mp-1", "mp-2", "mp-3"].map (fun i => i ++ "." ++ "json.gz"),
       .ok (["mp-1", "mp-2", "mp-3"].length)) :=
  c5_download.1 ChargeDensityRester.idFetch (fun _ => false) "json.gz"
    ["mp-1", "mp-2", "mp-3"] (fun _ _ => rfl) (fun _ _ => rfl)

/-- Counterexample to C8 as stated: with `keywords` absent the operator
does not leave the sort unspecified — the pipeline still contains the
explicit `{"$sort": {"search_score": -1}}` stage. -/
theorem c8_sort_counterexample :
    Stage.sort [("search_score", -1)] ∈ SynthesisSearchQuery.query id {} := by
  decide

/-- Claim C8 as amended: the pipeline always ends with
`$sort {"search_score": -1}`, `$skip`, `$limit` (the sort stage is
emitted whether or not `keywords` is present); and when `keywords` is
present, the `$search` stage is first, immediately followed by the
projection, which exposes the relevance score (`$meta searchScore`) and
the highlighted spans (`$meta searchHighlights`). -/
theorem c8_text_search (reduce : String → String)
    (p : SynthesisSearchQuery.Params) :
    (∃ front, SynthesisSearchQuery.query reduce p =
      front ++ [Stage.sort [("search_score", -1)], Stage.skip p.skip,
        Stage.limit p.limit]) ∧
    (pyTruthyStr p.keywords = true →
      (SynthesisSearchQuery.query reduce p).head? =
        some (Stage.search "synth_descriptions" (p.keywords.getD "")
          "paragraph_string" "paragraph_string") ∧
      (SynthesisSearchQuery.query reduce p)[1]? =
        some (Stage.project (SynthesisSearchQuery.projectDict true)) ∧
      ("search_score", ProjVal.meta "searchScore") ∈
        SynthesisSearchQuery.projectDict true ∧
      ("highlights", ProjVal.meta "searchHighlights") ∈
        SynthesisSearchQuery.projectDict true) := by
  constructor
  · exact ⟨_, rfl⟩
  · intro hk
    refine ⟨?_, ?_, by decide, by decide⟩ <;>
      simp [SynthesisSearchQuery.query, hk]

/-- Witness for C8's amended theorem with `keywords = "battery"`: the
`$search` stage leads the pipeline. -/
theorem c8_text_search_witness :
    (SynthesisSearchQuery.query id { keywords := some "battery" }).head? =
      some (Stage.search "synth_descriptions" "battery"
        "paragraph_string" "paragraph_string") :=
  ((c8_text_search id { keywords := some "battery" }).2 (by decide)).1

/-- Helper: every value kept in the XAS criteria dict is a non-empty
string (the dict comprehension filters falsy values). -/
theorem xas_mem_truthy (q : XASQuery.Params) (c : List (String × String))
    (hc : XASQuery.query q = some c) {kv : String × String} (hkv : kv ∈ c) :
    kv.2.isEmpty = false := by
  simp only [XASQuery.query] at hc
  split at hc
  · cases hc
    rcases List.mem_filterMap.1 hkv with ⟨a, _, hfa⟩
    rcases a with ⟨k0, _ | s⟩
    · simp at hfa
    · by_cases hs : s.isEmpty
      · simp [hs] at hfa
      · simp [hs] at hfa
        rw [← hfa]
        exact eq_false_of_ne_true hs
  · exact absurd hc (by simp)

/-- Helper: keys of the XAS criteria dict come from the two fixed keys,
and a key whose parameter is `none` never appears. -/
theorem xas_mem_key (q : XASQuery.Params) (c : List (String × String))
    (hc : XASQuery.query q = some c) {kv : String × String} (hkv : kv ∈ c) :
    (kv.1 = "edge" ∧ q.edge = some kv.2) ∨
    (kv.1 = "absorbing_element" ∧ q.absorbing_element = some kv.2) := by
  simp only [XASQuery.query] at hc
  split at hc
  · cases hc
    rcases List.mem_filterMap.1 hkv with ⟨a, ha, hfa⟩
    rcases a with ⟨k0, _ | s⟩
    · simp at hfa
    · by_cases hs : s.isEmpty
      · simp [hs] at hfa
      · simp [hs] at hfa
        simp at ha
        rcases ha with ⟨h1, h2⟩ | ⟨h1, h2⟩ <;> rw [← hfa] <;> simp [h1, h2]
  · exact absurd hc (by simp)

/-- Claim C7: an absent (`None`) optional filter parameter contributes no
clause at all: each lookup of the corresponding key (or, for the shared
range keys, of the corresponding bound) in the synthesis criteria comes
back empty, and the XAS criteria never contain a key whose parameter was
`None` — under every partial parameter set. -/
theorem c7_absent_params_omitted (reduce : String → String)
    (p : SynthesisSearchQuery.Params) (q : XASQuery.Params) :
    (p.synthesis_type = none →
      critLookup "synthesis_type" (SynthesisSearchQuery.crit reduce p) = none) ∧
    (p.target_formula = none →
      critLookup "targets_formula_s" (SynthesisSearchQuery.crit reduce p) = none) ∧
    (p.precursor_formula = none →
      critLookup "precursors_formula_s" (SynthesisSearchQuery.crit reduce p) = none) ∧
    (p.operations = none →
      critLookup "operations.type" (SynthesisSearchQuery.crit reduce p) = none) ∧
    (p.condition_heating_temperature_min = none → ∀ x : ℚ,
      critLookup "operations.conditions.heating_temperature.values"
        (SynthesisSearchQuery.crit reduce p) ≠ some (.gte x)) ∧
    (p.condition_heating_temperature_max = none → ∀ x : ℚ,
      critLookup "operations.conditions.heating_temperature.values"
        (SynthesisSearchQuery.crit reduce p) ≠ some (.lte x)) ∧
    (p.condition_heating_time_min = none → ∀ x : ℚ,
      critLookup "operations.conditions.heating_time.values"
        (SynthesisSearchQuery.crit reduce p) ≠ some (.gte x)) ∧
    (p.condition_heating_time_max = none → ∀ x : ℚ,
      critLookup "operations.conditions.heating_time.values"
        (SynthesisSearchQuery.crit reduce p) ≠ some (.lte x)) ∧
    (p.condition_heating_atmosphere = none →
      critLookup "operations.conditions.heating_atmosphere"
        (SynthesisSearchQuery.crit reduce p) = none) ∧
    (p.condition_mixing_device = none →
      critLookup "operations.conditions.mixing_device"
        (SynthesisSearchQuery.crit reduce p) = none) ∧
    (p.condition_mixing_media = none →
      critLookup "operations.conditions.mixing_media"
        (SynthesisSearchQuery.crit reduce p) = none) ∧
    (q.edge = none → ∀ c, XASQuery.query q = some c →
      ∀ v, ("edge", v) ∉ c) ∧
    (q.absorbing_element = none → ∀ c, XASQuery.query q = some c →
      ∀ v, ("absorbing_element", v) ∉ c) := by
  refine ⟨?_, ?_, ?_, ?_, ?_, ?_, ?_, ?_, ?_, ?_, ?_, ?_, ?_⟩
  · intro h; rw [SynthesisSearchQuery.crit_synthesis_type]
    simp [h, pyTruthyList]
  · intro h; rw [SynthesisSearchQuery.crit_targets_formula]
    simp [h, pyTruthyStr]
  · intro h; rw [SynthesisSearchQuery.crit_precursors_formula]
    simp [h, pyTruthyStr]
  · intro h; rw [SynthesisSearchQuery.crit_operations_type]
    simp [h, pyTruthyList]
  · intro h x; rw [SynthesisSearchQuery.crit_heating_temperature]
    simp only [h, pyTruthyNum]
    split <;> simp_all
  · intro h x; rw [SynthesisSearchQuery.crit_heating_temperature]
    simp only [h, pyTruthyNum]
    split <;> simp_all
  · intro h x; rw [SynthesisSearchQuery.crit_heating_time]
    simp only [h, pyTruthyNum]
    split <;> simp_all
  · intro h x; rw [SynthesisSearchQuery.crit_heating_time]
    simp only [h, pyTruthyNum]
    split <;> simp_all
  · intro h; rw [SynthesisSearchQuery.crit_heating_atmosphere]
    simp [h, pyTruthyList]
  · intro h; rw [SynthesisSearchQuery.crit_mixing_device]
    simp [h, pyTruthyList]
  · intro h; rw [SynthesisSearchQuery.crit_mixing_media]
    simp [h, pyTruthyList]
  · intro h c hc v hv
    rcases xas_mem_key q c hc hv with ⟨_, h2⟩ | ⟨h1, _⟩
    · rw [h] at h2; exact Option.noConfusion h2
    · exact absurd h1 (by simp)
  · intro h c hc v hv
    rcases xas_mem_key q c hc hv with ⟨h1, _⟩ | ⟨_, h2⟩
    · exact absurd h1 (by simp)
    · rw [h] at h2; exact Option.noConfusion h2

/-- Witness for C7 at the all-`None` parameter set: no synthesis-type
clause is emitted. -/
theorem c7_absent_params_omitted_witness :
    critLookup "synthesis_type" (SynthesisSearchQuery.crit id {}) = none :=
  (c7_absent_params_omitted id {} {}).1 rfl

/-- Helper: a truthy optional string is a `some` of a non-empty string. -/
theorem pyTruthyStr_eq_true {o : Option String} (h : pyTruthyStr o = true) :
    ∃ s, o = some s ∧ s.isEmpty = false := by
  cases o with
  | none => exact absurd h (by simp [pyTruthyStr])
  | some s => exact ⟨s, rfl, by simpa [pyTruthyStr] using h⟩

/-- Claim C10: a falsy parameter value (`""`, `[]`, `0`) is treated
exactly like an absent one in both operators; `XASQuery.query` returns the
bare `{}` (no `"criteria"` key, modelled as `none`) whenever no truthy
criterion remains; and every value of an emitted criteria dict is truthy
(given that the external reducer maps non-empty formulas to non-empty
strings). -/
theorem c10_falsy_dropped (reduce : String → String)
    (p : SynthesisSearchQuery.Params) (q : XASQuery.Params) :
    (SynthesisSearchQuery.query reduce { p with keywords := some "" } =
      SynthesisSearchQuery.query reduce { p with keywords := none }) ∧
    (SynthesisSearchQuery.query reduce { p with synthesis_type := some [] } =
      SynthesisSearchQuery.query reduce { p with synthesis_type := none }) ∧
    (SynthesisSearchQuery.query reduce { p with target_formula := some "" } =
      SynthesisSearchQuery.query reduce { p with target_formula := none }) ∧
    (SynthesisSearchQuery.query reduce { p with precursor_formula := some "" } =
      SynthesisSearchQuery.query reduce { p with precursor_formula := none }) ∧
    (SynthesisSearchQuery.query reduce { p with operations := some [] } =
      SynthesisSearchQuery.query reduce { p with operations := none }) ∧
    (SynthesisSearchQuery.query reduce
        { p with condition_heating_temperature_min := some 0 } =
      SynthesisSearchQuery.query reduce
        { p with condition_heating_temperature_min := none }) ∧
    (SynthesisSearchQuery.query reduce
        { p with condition_heating_temperature_max := some 0 } =
      SynthesisSearchQuery.query reduce
        { p with condition_heating_temperature_max := none }) ∧
    (SynthesisSearchQuery.query reduce
        { p with condition_heating_time_min := some 0 } =
      SynthesisSearchQuery.query reduce
        { p with condition_heating_time_min := none }) ∧
    (SynthesisSearchQuery.query reduce
        { p with condition_heating_time_max := some 0 } =
      SynthesisSearchQuery.query reduce
        { p with condition_heating_time_max := none }) ∧
    (SynthesisSearchQuery.query reduce
        { p with condition_heating_atmosphere := some [] } =
      SynthesisSearchQuery.query reduce
        { p with condition_heating_atmosphere := none }) ∧
    (SynthesisSearchQuery.query reduce
        { p with condition_mixing_device := some [] } =
      SynthesisSearchQuery.query reduce
        { p with condition_mixing_device := none }) ∧
    (SynthesisSearchQuery.query reduce
        { p with condition_mixing_media := some [] } =
      SynthesisSearchQuery.query reduce
        { p with condition_mixing_media := none }) ∧
    (XASQuery.query { q with edge := some "" } =
      XASQuery.query { q with edge := none }) ∧
    (XASQuery.query { q with absorbing_element := some "" } =
      XASQuery.query { q with absorbing_element := none }) ∧
    (pyTruthyStr q.edge = false → pyTruthyStr q.absorbing_element = false →
      XASQuery.query q = none) ∧
    ((∀ s : String, s.isEmpty = false → (reduce s).isEmpty = false) →
      ∀ kv ∈ SynthesisSearchQuery.crit reduce p, pyCritValTruthy kv.2 = true) ∧
    (∀ c, XASQuery.query q = some c → ∀ kv ∈ c, kv.2.isEmpty = false) := by
  refine ⟨?_, ?_, ?_, ?_, ?_, ?_, ?_, ?_, ?_, ?_, ?_, ?_, ?_, ?_, ?_, ?_, ?_⟩
  · simp [SynthesisSearchQuery.query, SynthesisSearchQuery.crit, pyTruthyStr,
      show "".isEmpty = true from rfl]
  · simp [SynthesisSearchQuery.query, SynthesisSearchQuery.crit, pyTruthyList]
  · simp [SynthesisSearchQuery.query, SynthesisSearchQuery.crit, pyTruthyStr,
      show "".isEmpty = true from rfl]
  · simp [SynthesisSearchQuery.query, SynthesisSearchQuery.crit, pyTruthyStr,
      show "".isEmpty = true from rfl]
  · simp [SynthesisSearchQuery.query, SynthesisSearchQuery.crit, pyTruthyList]
  · simp [SynthesisSearchQuery.query, SynthesisSearchQuery.crit, pyTruthyNum]
  · simp [SynthesisSearchQuery.query, SynthesisSearchQuery.crit, pyTruthyNum]
  · simp [SynthesisSearchQuery.query, SynthesisSearchQuery.crit, pyTruthyNum]
  · simp [SynthesisSearchQuery.query, SynthesisSearchQuery.crit, pyTruthyNum]
  · simp [SynthesisSearchQuery.query, SynthesisSearchQuery.crit, pyTruthyList]
  · simp [SynthesisSearchQuery.query, SynthesisSearchQuery.crit, pyTruthyList]
  · simp [SynthesisSearchQuery.query, SynthesisSearchQuery.crit, pyTruthyList]
  · simp [XASQuery.query, show "".isEmpty = true from rfl]
  · simp [XASQuery.query, List.filterMap_cons, show "".isEmpty = true from rfl]
  · intro h1 h2
    rcases he : q.edge with _ | s <;> rcases ha : q.absorbing_element with _ | t <;>
      rw [he] at h1 <;> rw [ha] at h2 <;>
      simp [pyTruthyStr] at h1 h2 <;>
      simp [XASQuery.query, he, ha, *]
  · intro hred kv hkv
    simp only [SynthesisSearchQuery.crit] at hkv
    rcases mem_addIf hkv with ⟨hb, rfl⟩ | hkv
    · rfl
    rcases mem_addIf hkv with ⟨hb, rfl⟩ | hkv
    · rfl
    rcases mem_addIf hkv with ⟨hb, rfl⟩ | hkv
    · rfl
    rcases mem_addIf hkv with ⟨hb, rfl⟩ | hkv
    · rfl
    rcases mem_addIf hkv with ⟨hb, rfl⟩ | hkv
    · rfl
    rcases mem_addIf hkv with ⟨hb, rfl⟩ | hkv
    · rfl
    rcases mem_addIf hkv with ⟨hb, rfl⟩ | hkv
    · rfl
    rcases mem_addIf hkv with ⟨hb, rfl⟩ | hkv
    · rfl
    rcases mem_addIf hkv with ⟨hb, rfl⟩ | hkv
    · obtain ⟨s, hs, hse⟩ := pyTruthyStr_eq_true hb
      rw [hs]
      simp [pyCritValTruthy, hred s hse]
    rcases mem_addIf hkv with ⟨hb, rfl⟩ | hkv
    · obtain ⟨s, hs, hse⟩ := pyTruthyStr_eq_true hb
      rw [hs]
      simp [pyCritValTruthy, hred s hse]
    rcases mem_addIf hkv with ⟨hb, rfl⟩ | hkv
    · rfl
    exact absurd hkv (List.not_mem_nil kv)
  · intro c hc kv hkv
    exact xas_mem_truthy q c hc hkv

/-- Witness for C10: a zero heating-temperature minimum yields the very
same pipeline as an absent one. -/
theorem c10_falsy_dropped_witness :
    SynthesisSearchQuery.query id
        { condition_heating_temperature_min := some 0 } =
      SynthesisSearchQuery.query id
        { condition_heating_temperature_min := none } :=
  (c10_falsy_dropped id {} {}).2.2.2.2.2.1
